import Mathlib

/-!
Shallow embedding of the volunteer-assignment and event-visibility core of
the compclub website (src/website/models.py, src/website/views.py, and
migration 0018 which adds the `hidden_event` and `released` fields and the
`view_hidden_event` / `view_unreleased_event` permissions).

Conventions of the embedding:
* Python `datetime.date` values are triples (year, month, day) compared
  lexicographically, exactly as Python compares dates.
* The Django ORM stores are explicit lists; many-to-many sets are lists of
  records; `filter`/`exclude` become `List.filter`.
* A viewer is a permission holder: `is_superuser` plus the set of granted
  permission strings ("app_label.codename").  Django's
  `User.has_perm p` is true for superusers and holders of `p`; Django's
  `User.has_perms perm_list` is `all (has_perm p) for p in perm_list` — when
  the call site passes a single string (as `views.py` line 133 does), Python
  iterates over its characters, so each character is checked as a permission
  name.  The embedding reproduces both call shapes faithfully.
* Raised `Http404(msg)` becomes the result `HttpResult.notFound msg`;
  `redirect(...)` becomes `HttpResult.redirectTo`; rendering the page becomes
  `HttpResult.page`.
-/

/-- A calendar date (as Python `datetime.date`): year, month, day. -/
structure MDate where
  year : Nat
  month : Nat
  day : Nat
deriving Repr, DecidableEq

/-- Python date comparison `a < b`: lexicographic on (year, month, day). -/
def dateLt (a b : MDate) : Bool :=
  a.year < b.year ||
    (a.year == b.year &&
      (a.month < b.month || (a.month == b.month && a.day < b.day)))

/-- Python date comparison `a <= b`. -/
def dateLe (a b : MDate) : Bool :=
  dateLt a b || a == b

/-- Python `\s` on ASCII text: space, tab, newline, carriage return,
vertical tab, form feed. -/
def isPySpace (c : Char) : Bool :=
  c == ' ' || c == '\t' || c == '\n' || c.toNat == 13 || c.toNat == 11 ||
    c.toNat == 12

/-- Python regex `\w` on ASCII text: alphanumeric or underscore. -/
def isWordChar (c : Char) : Bool :=
  c.isAlphanum || c == '_'

/-- Python `str.strip()`: drop leading and trailing whitespace. -/
def stripChars (l : List Char) : List Char :=
  ((l.dropWhile isPySpace).reverse.dropWhile isPySpace).reverse

/-- One pass of Django slugify's final `re.sub(r"[-\s]+", "-", value)`:
replace each maximal run of hyphens/whitespace by a single hyphen.  The
Boolean flag records whether we are inside such a run. -/
def collapseAux : Bool → List Char → List Char
  | _, [] => []
  | inRun, c :: rest =>
    if isPySpace c || c == '-' then
      if inRun then collapseAux true rest
      else '-' :: collapseAux true rest
    else
      c :: collapseAux false rest

/-- `django.utils.text.slugify` (Django 3.0, `allow_unicode=False`), modelled
on ASCII text: the NFKD-normalise/ASCII-encode step drops non-ASCII
characters; then lower-case, delete characters outside `[\w\s-]`, strip
surrounding whitespace, and collapse runs of `[-\s]+` to a single hyphen. -/
def slugify (s : String) : String :=
  let ascii := s.data.filter (fun c => c.toNat < 128)
  let lowered := ascii.map Char.toLower
  let kept := lowered.filter (fun c => isWordChar c || isPySpace c || c == '-')
  String.mk (collapseAux false (stripChars kept))

/-- `django.contrib.humanize` `ordinal`: append the English ordinal suffix
(11th/12th/13th special-cased, else by last digit). -/
def ordinal (n : Nat) : String :=
  let m := n % 100
  let suffix :=
    if m == 11 || m == 12 || m == 13 then "th"
    else match n % 10 with
      | 1 => "st"
      | 2 => "nd"
      | 3 => "rd"
      | _ => "th"
  toString n ++ suffix

/-- Python `calendar.month_name[m]` (index 0 is the empty string). -/
def monthName (m : Nat) : String :=
  (["", "January", "February", "March", "April", "May", "June", "July",
    "August", "September", "October", "November", "December"]).getD m ""

/-- A viewer (Django user) as a permission holder: superuser flag plus the
set of granted permission strings.  Inactive users are modelled with
`is_superuser = false` and no permissions, matching `ModelBackend`. -/
structure Viewer where
  is_superuser : Bool
  perms : List String
deriving Repr, DecidableEq

/-- Django `User.has_perm`: superusers hold every permission, otherwise the
permission string must be among the granted ones. -/
def Viewer.has_perm (v : Viewer) (p : String) : Bool :=
  v.is_superuser || v.perms.contains p

/-- Django `User.has_perms` applied to a list of permission strings:
`all(self.has_perm(perm) for perm in perm_list)`. -/
def Viewer.has_perms_list (v : Viewer) (l : List String) : Bool :=
  l.all (fun p => v.has_perm p)

/-- Django `User.has_perms` applied to a single string, as
`views.py` line 133 does (`has_perms("website.view_hidden_event")`):
Python iterates over the characters of the string, so every character is
checked as a one-character permission name. -/
def Viewer.has_perms_str (v : Viewer) (s : String) : Bool :=
  s.data.all (fun c => v.has_perm (String.mk [c]))

/-- `website.models.Event`.  `name`, `start_date`, `finish_date` and `slug`
are fields of models.py; `hidden_event` and `released` are added by
migration 0018; `highlighted_event` is the field views.py filters the home
page on. -/
structure Event where
  id : Nat
  name : String
  start_date : MDate
  finish_date : MDate
  slug : String
  hidden_event : Bool
  released : Bool
  highlighted_event : Bool
deriving Repr, DecidableEq

/-- `Event.save` (models.py lines 111-114): overwrite `slug` with
`slugify(self.name)`, then persist. -/
def Event.save (e : Event) : Event :=
  { e with slug := slugify e.name }

/-- Insert an event into a list sorted by `start_date` (helper for the
`order_by("start_date")` of the two list views). -/
def insertByStartDate (e : Event) : List Event → List Event
  | [] => [e]
  | x :: xs =>
    if dateLe e.start_date x.start_date then e :: x :: xs
    else x :: insertByStartDate e xs

/-- `order_by("start_date")` as an insertion sort (the claims below only
use that sorting preserves membership). -/
def orderByStartDate : List Event → List Event
  | [] => []
  | x :: xs => insertByStartDate x (orderByStartDate xs)

/-- `Index.get_context_data` (views.py lines 59-68): the home page lists
`Event.objects.filter(highlighted_event=True, finish_date__gte=now)`
ordered by start date. -/
def Index.events_list (events : List Event) (now : MDate) : List Event :=
  orderByStartDate
    (events.filter (fun e => e.highlighted_event && dateLe now e.finish_date))

/-- `EventIndex.get_context_data` (views.py lines 89-98): the events page
lists `Event.objects.filter(finish_date__gte=now)` ordered by start date
(the workshop-count annotation does not affect membership). -/
def EventIndex.events_list (events : List Event) (now : MDate) : List Event :=
  orderByStartDate (events.filter (fun e => dateLe now e.finish_date))

/-- Outcome of a GET on the event page: a raised `Http404(msg)`, a redirect,
or a rendered page for the given event id. -/
inductive HttpResult where
  | notFound (msg : String)
  | redirectTo (event_id : Nat) (slug : String)
  | page (event_id : Nat)
deriving Repr, DecidableEq

/-- `EventPage.permission_denied_message` (views.py line 122). -/
def permission_denied_message : String :=
  "Event does not exist or you don\x27t have permissions to view the event."

/-- `views.py` line 39. -/
def DISPLAY_ERROR : String :=
  "$DISPLAY_ERROR$"

/-- `EventPage.get_unreleased_message().format(a, b)` (views.py lines 123 and
178-180): the `DISPLAY_ERROR` marker followed by the unreleased template with
the two format slots filled. -/
def get_unreleased_message (a b : String) : String :=
  DISPLAY_ERROR ++ "Event hasn\x27t started yet! It will be available " ++
    a ++ b ++ " 😄"

/-- The message of the not-started denial (views.py lines 145-148): first
slot `from {ordinal day} `, second slot the month name of the start date. -/
def notStartedMessage (e : Event) : String :=
  get_unreleased_message ("from " ++ ordinal e.start_date.day ++ " ")
    (monthName e.start_date.month)

/-- `get_object_or_404` failure message. -/
def no_event_matches : String :=
  "No Event matches the given query."

/-- `EventPage.get` (views.py lines 129-164): look up the event by primary
key (404 if absent); 404 with the permission-denied message if the event is
hidden and `has_perms("website.view_hidden_event")` fails (a string
argument, so checked character by character); redirect to the canonical slug
on slug mismatch; 404 "not started" before the start date without the
unreleased permission; 404 "soon" if unreleased without that permission;
otherwise render the page. -/
def EventPage.getview (events : List Event) (user : Viewer) (today : MDate)
    (event_id : Nat) (slug : String) : HttpResult :=
  match events.find? (fun e => e.id == event_id) with
  | none => .notFound no_event_matches
  | some event =>
    if event.hidden_event &&
        !(user.has_perms_str "website.view_hidden_event") then
      .notFound permission_denied_message
    else if event.slug != slug then
      .redirectTo event.id event.slug
    else if dateLt today event.start_date &&
        !(user.has_perm "website.view_unreleased_event") then
      .notFound (notStartedMessage event)
    else if !event.released &&
        !(user.has_perm "website.view_unreleased_event") then
      .notFound (get_unreleased_message "" "soon")
    else
      .page event.id

/-- `EventPage` as dispatched through `PermissionRequiredMixin` (views.py
lines 101-122, 190-192): `permission_required = ("website.view_event")` is a
plain string, which the mixin wraps into a one-element tuple before calling
`has_perms`; on failure `handle_no_permission` raises `Http404` with the
permission-denied message, before `get` ever runs. -/
def EventPage.dispatch (events : List Event) (user : Viewer) (today : MDate)
    (event_id : Nat) (slug : String) : HttpResult :=
  if !(user.has_perms_list (["website.view_event"])) then
    .notFound permission_denied_message
  else
    EventPage.getview events user today event_id slug

/-- `website.models.Volunteer`; identity is the underlying user id. -/
structure Volunteer where
  id : Nat
deriving Repr, DecidableEq

/-- The status tag of `website.models.VolunteerAssignment`. -/
inductive AssignStatus where
  | ASSIGNED
  | WAITLIST
  | DECLINED
deriving Repr, DecidableEq

/-- `website.models.VolunteerAssignment` restricted to one workshop: the
volunteer and the status (the workshop key is the list that holds the
record; `unique_together = (workshop, volunteer)` appears as a `Nodup`
hypothesis on the volunteer ids where a claim needs it). -/
structure VolunteerAssignment where
  volunteer : Volunteer
  status : AssignStatus
deriving Repr, DecidableEq

/-- `website.models.Workshop`: the self-declared `available` volunteers and
the `assignment` records of this workshop. -/
structure Workshop where
  id : Nat
  available : List Volunteer
  assignment : List VolunteerAssignment
deriving Repr, DecidableEq

/-- The `assigned` many-to-many of models.py line 190: the volunteers
reachable through this workshop's `VolunteerAssignment` records (any
status). -/
def Workshop.assigned (w : Workshop) : List Volunteer :=
  w.assignment.map (fun a => a.volunteer)

/-- `Workshop.unassigned` (models.py lines 194-196):
`self.available.exclude(id__in=self.assigned.all())`. -/
def Workshop.unassigned (w : Workshop) : List Volunteer :=
  w.available.filter
    (fun v => !((w.assigned.map (fun u => u.id)).contains v.id))

/-- `Workshop.withdrawn` (models.py lines 198-209):
`self.assignment.exclude(status=DECLINED).exclude(volunteer__in=self.available.all())`,
projected to the volunteer. -/
def Workshop.withdrawn (w : Workshop) : List Volunteer :=
  ((w.assignment.filter (fun a => a.status != AssignStatus.DECLINED)).filter
    (fun a => !((w.available.map (fun v => v.id)).contains a.volunteer.id))).map
      (fun a => a.volunteer)

/-- Modelled from the spec: `website/forms.py` (the `VolunteerAssignForm`
class) is not under src/, only its caller `EventAssignVolunteers.post` is.
Per the spec, a submission entry is eligible when its volunteer "is
currently available or already has a record for this workshop". -/
def eligibleVolunteer (w : Workshop) (vid : Nat) : Bool :=
  (w.available.map (fun v => v.id)).contains vid ||
    (w.assignment.map (fun a => a.volunteer.id)).contains vid

/-- Modelled from the spec: `VolunteerAssignForm.is_valid` — the whole
submission is validated before any write; it is valid iff every referenced
volunteer is eligible. -/
def VolunteerAssignForm.is_valid (w : Workshop)
    (entries : List (Nat × AssignStatus)) : Bool :=
  entries.all (fun e => eligibleVolunteer w e.fst)

/-- Modelled from the spec: one entry of the submission — "create the
VolunteerAssignment record if absent, else update its status". -/
def createOrUpdateAssignment (w : Workshop) (vid : Nat) (st : AssignStatus) :
    Workshop :=
  if (w.assignment.map (fun a => a.volunteer.id)).contains vid then
    { w with
      assignment := w.assignment.map (fun a =>
        if a.volunteer.id == vid then { a with status := st } else a) }
  else
    { w with assignment := w.assignment ++ [⟨⟨vid⟩, st⟩] }

/-- Modelled from the spec: `VolunteerAssignForm.save` applies every entry
of a validated submission to the workshop's assignment records. -/
def VolunteerAssignForm.save (w : Workshop)
    (entries : List (Nat × AssignStatus)) : Workshop :=
  entries.foldl (fun acc e => createOrUpdateAssignment acc e.fst e.snd) w

/-- The body of a POST to the assignment page: the `workshop_id` field and
the submitted (volunteer id, new status) entries; `none` models a POST with
no `workshop_id` key. -/
structure AssignSubmission where
  workshop_id : Nat
  entries : List (Nat × AssignStatus)
deriving Repr, DecidableEq

/-- The outcome of `EventAssignVolunteers.post`: the redirect back to the
assignment page, or the 404 of `get_object_or_404` on an unknown workshop.
The view has no other `return`: on an invalid form (and on a body without
`workshop_id`) it falls off the end and produces no response (`None`). -/
inductive PostResult where
  | redirectAssign (event_id : Nat) (slug : String)
  | notFound (msg : String)
deriving Repr, DecidableEq

/-- `EventAssignVolunteers.post` (views.py lines 414-428) over a store of
workshops: look up the workshop named by the body, validate the whole
submission with `VolunteerAssignForm`, save and redirect when valid;
when the form is invalid (or `workshop_id` is missing) the method body ends
without a `return`, so the response component is `none` and the store is
unchanged. -/
def EventAssignVolunteers.post (workshops : List Workshop)
    (body : Option AssignSubmission) (event_id : Nat) (slug : String) :
    Option PostResult × List Workshop :=
  match body with
  | none => (none, workshops)
  | some sub =>
    match workshops.find? (fun w => w.id == sub.workshop_id) with
    | none => (some (.notFound ("No Workshop matches the given query.")),
               workshops)
    | some w =>
      if VolunteerAssignForm.is_valid w sub.entries then
        (some (.redirectAssign event_id slug),
         workshops.map (fun x =>
           if x.id == w.id then VolunteerAssignForm.save x sub.entries else x))
      else
        (none, workshops)

/-- The spec's visibility invariant, written from the spec text for
comparison with the code path: "an event is viewer-visible iff NOT hidden
(or viewer has the hidden-event permission) AND (today ≥ start_date AND
released, OR the viewer has the unreleased-event permission)". -/
def specViewerVisible (e : Event) (user : Viewer) (today : MDate) : Bool :=
  (!e.hidden_event || user.has_perm "website.view_hidden_event") &&
    ((dateLe e.start_date today && e.released) ||
      user.has_perm "website.view_unreleased_event")

/-! Concrete store states used by the closed theorems and witnesses below. -/

/-- A fixed "today" for concrete evaluations. -/
def today0 : MDate := ⟨2026, 10, 12⟩

/-- A hidden, released event whose start date is the day before `today0`. -/
def c1Event : Event :=
  ⟨1, "Launch Day", ⟨2026, 10, 11⟩, ⟨2026, 12, 31⟩, "launch-day",
    true, true, true⟩

/-- A non-superuser holding the base view permission and the hidden-event
permission. -/
def c1Viewer : Viewer :=
  ⟨false, ["website.view_event", "website.view_hidden_event"]⟩

/-- A workshop with an assignment record for a volunteer who is not in the
available set (a withdrawn-style state). -/
def c2Workshop : Workshop :=
  ⟨7, [], [⟨⟨1⟩, AssignStatus.ASSIGNED⟩]⟩

/-- A workshop whose assignment records all refer to still-available
volunteers. -/
def c2bWorkshop : Workshop :=
  ⟨8, [⟨1⟩, ⟨4⟩], [⟨⟨4⟩, AssignStatus.ASSIGNED⟩]⟩

/-- A workshop whose only available volunteer has id 4 and with no
assignment records yet. -/
def c3Workshop : Workshop :=
  ⟨9, [⟨4⟩], []⟩

/-- A submission on `c3Workshop` whose second entry references volunteer 99,
who is neither available nor recorded. -/
def c3Submission : AssignSubmission :=
  ⟨9, [(4, AssignStatus.ASSIGNED), (99, AssignStatus.WAITLIST)]⟩

/-- A hidden, unreleased event with a future start date. -/
def c4Event : Event :=
  ⟨2, "Future Fest", ⟨2026, 11, 20⟩, ⟨2026, 12, 31⟩, "future-fest",
    true, false, false⟩

/-- A non-superuser holding the base view permission and the
unreleased-event permission, but not the hidden-event permission. -/
def c4Viewer : Viewer :=
  ⟨false, ["website.view_event", "website.view_unreleased_event"]⟩

/-- A hidden event, for the slug-mismatch counterexample. -/
def c5Event : Event :=
  ⟨3, "Spring Fair", ⟨2026, 10, 1⟩, ⟨2026, 12, 31⟩, "spring-fair",
    true, true, false⟩

/-- A visible (non-hidden) event with a canonical slug. -/
def c5bEvent : Event :=
  ⟨4, "Open Day", ⟨2026, 10, 1⟩, ⟨2026, 12, 31⟩, "open-day",
    false, true, false⟩

/-- A non-superuser holding only the base view permission. -/
def c5Viewer : Viewer :=
  ⟨false, ["website.view_event"]⟩

/-- A workshop with a DECLINED record for volunteer 3 and an ASSIGNED record
for volunteer 2; only volunteer 1 is still available. -/
def c6Workshop : Workshop :=
  ⟨11, [⟨1⟩], [⟨⟨3⟩, AssignStatus.DECLINED⟩, ⟨⟨2⟩, AssignStatus.ASSIGNED⟩]⟩

/-- A hidden, highlighted event that has not finished at `today0`. -/
def c8Event : Event :=
  ⟨6, "Secret Gala", ⟨2026, 11, 1⟩, ⟨2026, 12, 31⟩, "secret-gala",
    true, true, true⟩

/-- A workshop with no available volunteers and no records. -/
def c9Workshop : Workshop :=
  ⟨5, [], []⟩

/-- A submission on `c9Workshop` referencing the ineligible volunteer 99. -/
def c9Submission : AssignSubmission :=
  ⟨5, [(99, AssignStatus.ASSIGNED)]⟩

/-- A viewer with no permissions at all. -/
def c10Viewer : Viewer :=
  ⟨false, []⟩

/-- Claim C1: the spec's visibility invariant says a viewer holding the
hidden-event permission is never denied solely because `hidden_event` is
true, but `EventPage.get` calls `has_perms` with a single string, which
Python iterates character by character, so a non-superuser holding
`website.view_hidden_event` (and the base `website.view_event`) is still
denied with the permission-denied 404 on a hidden, released, already-started
event that the spec formula classifies as visible. -/
theorem c1_hidden_permission_ineffective :
  c1Viewer.has_perm ("website.view_hidden_event") = true ∧
  specViewerVisible c1Event c1Viewer today0 = true ∧
  EventPage.dispatch [c1Event] c1Viewer today0 1 ("launch-day") =
    HttpResult.notFound permission_denied_message := by
  refine ⟨by decide, by decide, by decide⟩

/-- Claim C8: a hidden event is not excluded from the public listings — the
home page (`Index`) and the events index (`EventIndex`) filter only on
`highlighted_event` and `finish_date`, so a hidden, highlighted, unfinished
event appears in both `events_list` querysets for every viewer. -/
theorem c8_hidden_event_listed :
  c8Event.hidden_event = true ∧
  c8Event ∈ Index.events_list [c8Event] today0 ∧
  c8Event ∈ EventIndex.events_list [c8Event] today0 := by
  refine ⟨by decide, by decide, by decide⟩

/-- Claim C9: on a submission referencing an ineligible volunteer the form
is invalid, so `EventAssignVolunteers.post` leaves the store untouched —
but it also falls off the end of the method and produces no response at all
(`none`), instead of surfacing the validation error to the submitter. -/
theorem c9_invalid_submission_no_response :
  VolunteerAssignForm.is_valid c9Workshop c9Submission.entries = false ∧
  EventAssignVolunteers.post [c9Workshop] (some c9Submission) 2 ("ev") =
    (none, [c9Workshop]) := by
  refine ⟨by decide, by decide⟩

/-- Claim C7: after every `Event.save` the stored slug equals
`slugify(name)`, whatever slug was stored before; renaming the event makes
the next save recompute the slug from the new name; and the concrete name
"Spring Code Camp!!" slugifies to "spring-code-camp". -/
theorem c7_slug_invariant :
  ∀ (e : Event) (s n : String),
    (Event.save e).slug = slugify e.name ∧
    Event.save { e with slug := s } = Event.save e ∧
    (Event.save { e with name := n }).slug = slugify n ∧
    slugify ("Spring Code Camp!!") = "spring-code-camp" := by
  intro e s n
  refine ⟨rfl, rfl, rfl, by decide⟩

/-- Claim C10: `PermissionRequiredMixin` dispatch runs before `EventPage.get`
ever looks at the event, so a viewer lacking `website.view_event` always
receives the permission-denied 404, for every event store, date, event id
and slug — regardless of `hidden_event`, `released` or `start_date`. -/
theorem c10_view_event_gate :
  ∀ (events : List Event) (user : Viewer) (today : MDate) (event_id : Nat)
      (slug : String),
    user.has_perm ("website.view_event") = false →
    EventPage.dispatch events user today event_id slug =
      HttpResult.notFound permission_denied_message := by
  intro events user today event_id slug h
  unfold EventPage.dispatch Viewer.has_perms_list
  simp [h]

/-- Witness for C10 at a concrete input: a permissionless viewer is denied
with the permission-denied message even on an empty store. -/
theorem c10_view_event_gate_witness :
  EventPage.dispatch [] c10Viewer today0 1 ("x") =
    HttpResult.notFound permission_denied_message :=
  c10_view_event_gate [] c10Viewer today0 1 ("x") (by decide)

/-- Claim C4: denial precedence in `EventPage.get`.  First conjunct: when
the hidden check fires (hidden event, `has_perms` string check false) the
outcome is the permission-denied 404 whatever the dates, release flag or
requested slug.  Second conjunct: when the hidden check passes and the event
has not started, the outcome is the not-started message even when
`released = false`.  Third conjunct: the spec's concrete instance — a
hidden future event viewed with base access plus only
`view_unreleased_event` yields the not-found permission message, not the
not-started message. -/
theorem c4_denial_precedence :
  (∀ (events : List Event) (user : Viewer) (today : MDate) (event_id : Nat)
      (slug : String) (event : Event),
    events.find? (fun e => e.id == event_id) = some event →
    event.hidden_event = true →
    user.has_perms_str ("website.view_hidden_event") = false →
    EventPage.getview events user today event_id slug =
      HttpResult.notFound permission_denied_message) ∧
  (∀ (events : List Event) (user : Viewer) (today : MDate) (event_id : Nat)
      (event : Event),
    events.find? (fun e => e.id == event_id) = some event →
    (event.hidden_event = false ∨
      user.has_perms_str ("website.view_hidden_event") = true) →
    dateLt today event.start_date = true →
    user.has_perm ("website.view_unreleased_event") = false →
    event.released = false →
    EventPage.getview events user today event_id event.slug =
      HttpResult.notFound (notStartedMessage event)) ∧
  (EventPage.dispatch [c4Event] c4Viewer today0 2 ("future-fest") =
      HttpResult.notFound permission_denied_message ∧
    EventPage.dispatch [c4Event] c4Viewer today0 2 ("future-fest") ≠
      HttpResult.notFound (notStartedMessage c4Event)) := by
  refine ⟨?_, ?_, by decide, by decide⟩
  · intro events user today event_id slug event hfind hh hp
    unfold EventPage.getview
    rw [hfind]
    simp [hh, hp]
  · intro events user today event_id event hfind hh hlt hperm hrel
    unfold EventPage.getview
    rw [hfind]
    rcases hh with h | h
    · simp [h, hlt, hperm]
    · simp [h, hlt, hperm]

/-- Witness for C4 at a concrete input: the hidden check fires on the
hidden future event for a viewer without the hidden-event permission. -/
theorem c4_denial_precedence_witness :
  EventPage.getview [c4Event] c4Viewer today0 2 ("future-fest") =
    HttpResult.notFound permission_denied_message :=
  c4_denial_precedence.1 [c4Event] c4Viewer today0 2 ("future-fest") c4Event
    (by decide) (by decide) (by decide)

/-- Counterexample for C5: the claim says a slug-mismatched request for an
existing event is redirected before any visibility check, but the hidden
check of `EventPage.get` runs first: a hidden event requested under a wrong
slug by a viewer with only base access yields the permission-denied 404, not
the redirect to the canonical slug. -/
theorem c5_redirect_counterexample :
  EventPage.dispatch [c5Event] c5Viewer today0 3 ("wrong-slug") =
    HttpResult.notFound permission_denied_message ∧
  EventPage.dispatch [c5Event] c5Viewer today0 3 ("wrong-slug") ≠
    HttpResult.redirectTo 3 ("spring-fair") := by
  refine ⟨by decide, by decide⟩

/-- Claim C5 (amended): for an existing event that passes the hidden-event
check (not hidden, or the `has_perms` string check succeeds), a request
whose slug differs from the canonical slug is answered with the redirect to
the canonical slug URL before the date and release checks are evaluated. -/
theorem c5_redirect_after_hidden_check :
  ∀ (events : List Event) (user : Viewer) (today : MDate) (event_id : Nat)
      (slug : String) (event : Event),
    user.has_perm ("website.view_event") = true →
    events.find? (fun e => e.id == event_id) = some event →
    (event.hidden_event = false ∨
      user.has_perms_str ("website.view_hidden_event") = true) →
    event.slug ≠ slug →
    EventPage.dispatch events user today event_id slug =
      HttpResult.redirectTo event.id event.slug := by
  intro events user today event_id slug event hgate hfind hh hslug
  unfold EventPage.dispatch Viewer.has_perms_list
  simp only [List.all_cons, List.all_nil, hgate, Bool.and_true,
    Bool.not_true, Bool.false_eq_true, if_false]
  unfold EventPage.getview
  rw [hfind]
  rcases hh with h | h
  · simp [h, hslug]
  · simp [h, hslug]

/-- Witness for C5 at a concrete input: a stale slug for the visible
`c5bEvent` is redirected to the canonical slug. -/
theorem c5_redirect_after_hidden_check_witness :
  EventPage.dispatch [c5bEvent] c5Viewer today0 4 ("stale-slug") =
    HttpResult.redirectTo 4 ("open-day") :=
  c5_redirect_after_hidden_check [c5bEvent] c5Viewer today0 4 ("stale-slug")
    c5bEvent (by decide) (by decide) (Or.inl (by decide)) (by decide)

/-- Claim C3: an assignment submission containing at least one ineligible
volunteer (not currently available and with no prior record on the workshop)
makes the whole form invalid, and `EventAssignVolunteers.post` then leaves
the workshop store exactly as it was — nothing is partially applied.  (The
form itself is modelled from the spec, since `website/forms.py` is not in
the sources.) -/
theorem c3_invalid_batch_rejected :
  ∀ (workshops : List Workshop) (sub : AssignSubmission) (w : Workshop)
      (event_id : Nat) (slug : String),
    workshops.find? (fun x => x.id == sub.workshop_id) = some w →
    (∃ e ∈ sub.entries, eligibleVolunteer w e.fst = false) →
    VolunteerAssignForm.is_valid w sub.entries = false ∧
    EventAssignVolunteers.post workshops (some sub) event_id slug =
      (none, workshops) := by
  intro workshops sub w event_id slug hfind hex
  have hinv : VolunteerAssignForm.is_valid w sub.entries = false := by
    unfold VolunteerAssignForm.is_valid
    rcases hex with ⟨e, hmem, helig⟩
    simp only [List.all_eq_false]
    exact ⟨e, hmem, by simp [helig]⟩
  refine ⟨hinv, ?_⟩
  unfold EventAssignVolunteers.post
  simp [hfind, hinv]

/-- Witness for C3 at a concrete input: the submission referencing both the
available volunteer 4 and the ineligible volunteer 99 is rejected whole and
the store is unchanged. -/
theorem c3_invalid_batch_rejected_witness :
  VolunteerAssignForm.is_valid c3Workshop c3Submission.entries = false ∧
  EventAssignVolunteers.post [c3Workshop] (some c3Submission) 1 ("ev") =
    (none, [c3Workshop]) :=
  c3_invalid_batch_rejected [c3Workshop] c3Submission c3Workshop 1 ("ev")
    (by decide) ⟨(99, AssignStatus.WAITLIST), by decide, by decide⟩

/-- Counterexample for C2: on a workshop with an assignment record for a
volunteer who is no longer available (volunteer 1 on `c2Workshop`), the
union of `unassigned` and `assigned` is not the available set — volunteer 1
is assigned but not available, so the claimed set equation fails. -/
theorem c2_union_counterexample :
  (Volunteer.mk 1 ∈ c2Workshop.assigned ∧
    Volunteer.mk 1 ∉ c2Workshop.available) ∧
  ¬ (∀ v : Volunteer,
      (v ∈ c2Workshop.unassigned ∨ v ∈ c2Workshop.assigned) ↔
        v ∈ c2Workshop.available) := by
  refine ⟨⟨by decide, by decide⟩, ?_⟩
  intro h
  have h1 : Volunteer.mk 1 ∈ c2Workshop.available :=
    (h ⟨1⟩).mp (Or.inr (by decide))
  exact absurd h1 (by decide)

/-- Claim C2 (amended): `unassigned(W)` and `assigned(W)` are always
disjoint by volunteer identity, and their union equals `available(W)` (by
volunteer identity) whenever every assignment record of W still refers to
an available volunteer — the extra elements of the union are exactly the
assigned-but-no-longer-available volunteers. -/
theorem c2_partition_amended :
  ∀ w : Workshop,
    (∀ v ∈ w.unassigned, ∀ u ∈ w.assigned, v.id ≠ u.id) ∧
    ((∀ a ∈ w.assignment,
        a.volunteer.id ∈ w.available.map (fun x => x.id)) →
      ∀ i : Nat,
        ((i ∈ w.unassigned.map (fun x => x.id)) ∨
          (i ∈ w.assigned.map (fun x => x.id))) ↔
          i ∈ w.available.map (fun x => x.id)) := by
  intro w
  constructor
  · intro v hv u hu heq
    simp only [Workshop.unassigned, List.mem_filter] at hv
    obtain ⟨hva, hvb⟩ := hv
    simp only [List.elem_eq_mem, Bool.not_eq_true', decide_eq_false_iff_not]
      at hvb
    rw [heq] at hvb
    exact hvb (List.mem_map_of_mem _ hu)
  · intro hsub i
    constructor
    · rintro (h | h)
      · simp only [Workshop.unassigned, List.mem_map, List.mem_filter] at h
        obtain ⟨v, ⟨hva, _⟩, rfl⟩ := h
        exact List.mem_map_of_mem _ hva
      · simp only [Workshop.assigned, List.map_map, List.mem_map] at h
        obtain ⟨a, ha, rfl⟩ := h
        exact hsub a ha
    · intro hi
      simp only [List.mem_map] at hi
      obtain ⟨v, hv, rfl⟩ := hi
      by_cases hc : v.id ∈ w.assigned.map (fun x => x.id)
      · exact Or.inr hc
      · refine Or.inl (List.mem_map_of_mem _ ?_)
        simp only [Workshop.unassigned, List.mem_filter]
        exact ⟨hv, by simp [hc]⟩

/-- Witness for C2 at a concrete input: on `c2bWorkshop`, whose assignment
records all refer to available volunteers, membership of id 4 in the union
coincides with membership in the available set. -/
theorem c2_partition_amended_witness :
  ((4 ∈ c2bWorkshop.unassigned.map (fun x => x.id)) ∨
    (4 ∈ c2bWorkshop.assigned.map (fun x => x.id))) ↔
    4 ∈ c2bWorkshop.available.map (fun x => x.id) :=
  (c2_partition_amended c2bWorkshop).2 (by decide) 4

/-- Claim C6: under the uniqueness key of `VolunteerAssignment` (at most one
record per volunteer and workshop, a `Nodup` on the record volunteer ids), a
volunteer with a DECLINED record is never in `withdrawn`, whatever the
availability set; and `withdrawn` contains exactly the volunteers of the
non-DECLINED records whose volunteer is no longer available. -/
theorem c6_withdrawn_excludes_declined :
  ∀ w : Workshop,
    ((w.assignment.map (fun a => a.volunteer.id)).Nodup →
      ∀ a ∈ w.assignment, a.status = AssignStatus.DECLINED →
        a.volunteer ∉ w.withdrawn) ∧
    (∀ v : Volunteer, v ∈ w.withdrawn ↔
      ∃ a ∈ w.assignment, a.status ≠ AssignStatus.DECLINED ∧
        a.volunteer.id ∉ w.available.map (fun u => u.id) ∧
        a.volunteer = v) := by
  intro w
  have hchar : ∀ v : Volunteer, v ∈ w.withdrawn ↔
      ∃ a ∈ w.assignment, a.status ≠ AssignStatus.DECLINED ∧
        a.volunteer.id ∉ w.available.map (fun u => u.id) ∧
        a.volunteer = v := by
    intro v
    unfold Workshop.withdrawn
    simp only [List.mem_map, List.mem_filter]
    constructor
    · rintro ⟨a, ⟨⟨ha, hst⟩, hav⟩, rfl⟩
      refine ⟨a, ha, by simpa using hst, by simpa using hav, rfl⟩
    · rintro ⟨a, ha, hst, hav, rfl⟩
      exact ⟨a, ⟨⟨ha, by simpa using hst⟩, by simpa using hav⟩, rfl⟩
  constructor
  · intro hnodup a ha hdecl hmem
    rcases (hchar a.volunteer).mp hmem with ⟨b, hb, hbst, _, hbv⟩
    have hba : b = a :=
      List.inj_on_of_nodup_map hnodup hb ha (by rw [hbv])
    rw [hba] at hbst
    exact hbst hdecl
  · exact hchar

/-- Witness for C6 at a concrete input: volunteer 3, whose record on
`c6Workshop` is DECLINED, is not in the withdrawn list even though they are
not available. -/
theorem c6_withdrawn_excludes_declined_witness :
  Volunteer.mk 3 ∉ c6Workshop.withdrawn :=
  (c6_withdrawn_excludes_declined c6Workshop).1 (by decide)
    ⟨⟨3⟩, AssignStatus.DECLINED⟩ (by decide) (by decide)
